import Mathlib

/-!
Verification of the boundary-constrained encroachment detection pipeline.

Shallow embedding of the compliance core of the repository:
- `ComplianceEngine` (backend/core/compliance.py): raster encroachment,
  land classification, risk scoring, recommended actions.
- `Metrics` (backend/compliance/metrics.py): polygon-based encroachment,
  health index, classification, recommended actions.
- `EconomicsEngine` (backend/core/economics.py): health index.
- `detect_builtup_areas` (backend/utils/builtup_detection.py) and
  `IntelligenceEngine.analyze_satellite_builtup` (backend/core/intelligence.py):
  built-up detection, modelled over abstract contour extraction.

Binary masks are modelled as boolean grids; pixel counts as naturals;
areas and percentages as exact rationals.  Python `round(x, 2)` is modelled
as round-half-even at two decimals over the rationals.  Fallible Python
code (raising `ValueError` / `ZeroDivisionError`) is modelled with `Except`.
-/

/-- A binary mask: a `rows × cols` grid of boolean pixels (a pixel is
"nonzero"/foreground iff `px i j = true`).  Mirrors a 2-D `uint8` array of
values 0/255 under OpenCV nonzero semantics. -/
structure Mask where
  rows : Nat
  cols : Nat
  px : Nat → Nat → Bool

/-- `cv2.countNonZero`: number of foreground pixels in range. -/
def countNonZero (m : Mask) : Nat :=
  ((List.range m.rows).map (fun i => (List.range m.cols).countP (fun j => m.px i j))).sum

/-- All in-range pixels are background. -/
def AllBlank (m : Mask) : Prop :=
  ∀ i j, i < m.rows → j < m.cols → m.px i j = false

theorem countNonZero_eq_zero_iff (m : Mask) : countNonZero m = 0 ↔ AllBlank m := by
  unfold countNonZero AllBlank
  rw [List.sum_eq_zero_iff]
  constructor
  · intro h i j hi hj
    have hrow := h ((List.range m.cols).countP (fun j => m.px i j))
      (List.mem_map.mpr ⟨i, List.mem_range.mpr hi, rfl⟩)
    have := List.countP_eq_zero.mp hrow j (List.mem_range.mpr hj)
    simpa using this
  · intro h x hx
    rcases List.mem_map.mp hx with ⟨i, hi, rfl⟩
    refine List.countP_eq_zero.mpr ?_
    intro j hj
    simp [h i j (List.mem_range.mp hi) (List.mem_range.mp hj)]

/-- An all-background mask (`np.zeros`). -/
def zeroMask (r c : Nat) : Mask := ⟨r, c, fun _ _ => false⟩

theorem zeroMask_blank (r c : Nat) : AllBlank (zeroMask r c) := by
  intro i j _ _; rfl

/-- `cv2.bitwise_not` on a 0/255 mask: flips foreground/background. -/
def maskNot (m : Mask) : Mask := ⟨m.rows, m.cols, fun i j => !(m.px i j)⟩

/-- `cv2.bitwise_and` of two 0/255 masks with the dimensions of the first:
a pixel is foreground iff it is foreground in both. -/
def maskAnd (a b : Mask) : Mask := ⟨a.rows, a.cols, fun i j => a.px i j && b.px i j⟩

/-- `cv2.dilate` with a `(2k+1)×(2k+1)` rectangular structuring element
(centered anchor): a pixel becomes foreground iff some in-bounds pixel of the
window is foreground (out-of-bounds neighbours do not contribute, matching
OpenCV's default border value for dilation). -/
def dilateK (k : Nat) (m : Mask) : Mask :=
  ⟨m.rows, m.cols, fun i j =>
    (List.range (2 * k + 1)).any fun di =>
      (List.range (2 * k + 1)).any fun dj =>
        if k ≤ i + di ∧ i + di - k < m.rows ∧ k ≤ j + dj ∧ j + dj - k < m.cols then
          m.px (i + di - k) (j + dj - k)
        else false⟩

/-- `cv2.erode` with a `(2k+1)×(2k+1)` rectangular structuring element:
a pixel stays foreground iff every in-bounds pixel of the window is
foreground (out-of-bounds neighbours are treated as foreground, matching
OpenCV's default border value for erosion). -/
def erodeK (k : Nat) (m : Mask) : Mask :=
  ⟨m.rows, m.cols, fun i j =>
    (List.range (2 * k + 1)).all fun di =>
      (List.range (2 * k + 1)).all fun dj =>
        if k ≤ i + di ∧ i + di - k < m.rows ∧ k ≤ j + dj ∧ j + dj - k < m.cols then
          m.px (i + di - k) (j + dj - k)
        else true⟩

/-- `cv2.morphologyEx(·, cv2.MORPH_OPEN, 3×3 rect kernel)`: erosion then
dilation. -/
def open3 (m : Mask) : Mask := dilateK 1 (erodeK 1 m)

theorem dilateK_rows (k : Nat) (m : Mask) : (dilateK k m).rows = m.rows := rfl
theorem dilateK_cols (k : Nat) (m : Mask) : (dilateK k m).cols = m.cols := rfl
theorem erodeK_rows (k : Nat) (m : Mask) : (erodeK k m).rows = m.rows := rfl
theorem erodeK_cols (k : Nat) (m : Mask) : (erodeK k m).cols = m.cols := rfl

theorem AllBlank_dilateK (k : Nat) (m : Mask) (h : AllBlank m) : AllBlank (dilateK k m) := by
  intro i j hi hj
  show (List.range (2 * k + 1)).any _ = false
  rw [List.any_eq_false]
  intro di _
  rw [Bool.not_eq_true, List.any_eq_false]
  intro dj _
  split
  · next hcond => simp [h _ _ hcond.2.1 hcond.2.2.2]
  · simp

theorem AllBlank_erodeK (k : Nat) (m : Mask) (h : AllBlank m) : AllBlank (erodeK k m) := by
  intro i j hi hj
  have hi' : i < m.rows := hi
  have hj' : j < m.cols := hj
  show (List.range (2 * k + 1)).all _ = false
  rw [Bool.eq_false_iff]
  intro hall
  rw [List.all_eq_true] at hall
  have h1 := hall k (List.mem_range.mpr (by omega))
  rw [List.all_eq_true] at h1
  have h2 := h1 k (List.mem_range.mpr (by omega))
  rw [if_pos (show k ≤ i + k ∧ i + k - k < m.rows ∧ k ≤ j + k ∧ j + k - k < m.cols from
    ⟨by omega, by omega, by omega, by omega⟩)] at h2
  have hik : i + k - k = i := by omega
  have hjk : j + k - k = j := by omega
  rw [hik, hjk] at h2
  rw [h i j hi hj] at h2
  exact Bool.false_ne_true h2

theorem AllBlank_maskAnd_of_right (a b : Mask) (hr : a.rows = b.rows) (hc : a.cols = b.cols)
    (h : AllBlank b) : AllBlank (maskAnd a b) := by
  intro i j hi hj
  show (a.px i j && b.px i j) = false
  rw [h i j (hr ▸ hi) (hc ▸ hj)]
  exact Bool.and_false _

/-- Round-half-even of a rational to an integer, the shallow model of
Python's builtin banker's rounding. -/
def rhe (x : ℚ) : ℤ :=
  if x - ⌊x⌋ < 1 / 2 then ⌊x⌋
  else if 1 / 2 < x - ⌊x⌋ then ⌊x⌋ + 1
  else if ⌊x⌋ % 2 = 0 then ⌊x⌋ else ⌊x⌋ + 1

/-- Python `round(x, 2)`: round-half-even at two decimal places. -/
def round2 (q : ℚ) : ℚ := (rhe (q * 100) : ℚ) / 100

theorem rhe_ge (x : ℚ) : ⌊x⌋ ≤ rhe x := by
  unfold rhe; split_ifs <;> omega

theorem rhe_le (x : ℚ) : rhe x ≤ ⌊x⌋ + 1 := by
  unfold rhe; split_ifs <;> omega

theorem rhe_mono {x y : ℚ} (h : x ≤ y) : rhe x ≤ rhe y := by
  have hf : ⌊x⌋ ≤ ⌊y⌋ := Int.floor_le_floor h
  rcases lt_or_eq_of_le hf with hlt | heq
  · calc rhe x ≤ ⌊x⌋ + 1 := rhe_le x
      _ ≤ ⌊y⌋ := by omega
      _ ≤ rhe y := rhe_ge y
  · unfold rhe
    rw [← heq]
    have hd : x - ⌊x⌋ ≤ y - (⌊x⌋ : ℚ) := by linarith
    split_ifs <;> first | rfl | omega | linarith

theorem rhe_intCast (n : ℤ) : rhe (n : ℚ) = n := by
  unfold rhe
  rw [Int.floor_intCast]
  rw [if_pos (by norm_num)]

theorem round2_mono {q r : ℚ} (h : q ≤ r) : round2 q ≤ round2 r := by
  unfold round2
  have h1 : q * 100 ≤ r * 100 := by linarith
  have h2 := rhe_mono h1
  have h3 : (rhe (q * 100) : ℚ) ≤ (rhe (r * 100) : ℚ) := by exact_mod_cast h2
  linarith

theorem round2_zero : round2 0 = 0 := by
  unfold round2
  rw [show ((0 : ℚ) * 100) = ((0 : ℤ) : ℚ) by norm_num, rhe_intCast]
  norm_num

theorem round2_hundred : round2 100 = 100 := by
  unfold round2
  rw [show ((100 : ℚ) * 100) = ((10000 : ℤ) : ℚ) by norm_num, rhe_intCast]
  norm_num

/-! ## ComplianceEngine (backend/core/compliance.py) -/

/-- Result record of `ComplianceEngine.compute_encroachment` (the `masks`
entry of the returned dict is visualization-only and omitted). -/
structure CEOut where
  encroachment_pct : ℚ
  utilization_pct : ℚ
  approved_px : Nat
  encroached_px : Nat
  built_inside_px : Nat
deriving DecidableEq

namespace ComplianceEngine

/-- `ComplianceEngine.compute_encroachment`: raster encroachment metrics.
Raises `ValueError` on mask shape mismatch; otherwise intersects the built-up
mask with the complement of the plot mask, opens it with a 3×3 kernel,
floors the approved-pixel denominator to 1, clamps the encroached count to
the approved count, and reports percentages rounded to two decimals. -/
def compute_encroachment (plot_mask built_up_mask : Mask) : Except String CEOut :=
  if plot_mask.rows = built_up_mask.rows ∧ plot_mask.cols = built_up_mask.cols then
    let outside_zone := maskNot plot_mask
    let encroachment_mask := open3 (maskAnd built_up_mask outside_zone)
    let approved_px0 := countNonZero plot_mask
    let built_inside_px := countNonZero (maskAnd built_up_mask plot_mask)
    let encroached_px0 := countNonZero encroachment_mask
    let approved_px := if approved_px0 < 1 then 1 else approved_px0
    let encroached_px := if approved_px < encroached_px0 then approved_px else encroached_px0
    Except.ok
      { encroachment_pct := round2 (((encroached_px : ℚ) / (approved_px : ℚ)) * 100)
        utilization_pct := round2 (((built_inside_px : ℚ) / (approved_px : ℚ)) * 100)
        approved_px := approved_px
        encroached_px := encroached_px
        built_inside_px := built_inside_px }
  else Except.error "Mask dimensions mismatch"

/-- `ComplianceEngine.classify_land`: land classification from the metrics
dict fields `encroachment_pct` and `utilization_pct`. -/
def classify_land (encroachment_pct utilization_pct : ℚ) : String :=
  if encroachment_pct > 10 then "Major Encroachment"
  else if encroachment_pct > 1 then "Encroached"
  else if utilization_pct < 5 then "Vacant"
  else if utilization_pct < 30 then "Under Construction"
  else if utilization_pct ≥ 30 then "Fully Constructed"
  else "Unknown"

end ComplianceEngine

/-- Result record of `ComplianceEngine.calculate_risk_score`. -/
structure RiskOut where
  level : String
  score : Nat
  color : String
deriving DecidableEq

namespace ComplianceEngine

/-- `ComplianceEngine.calculate_risk_score` with the constructor thresholds
`critical = 30`, `major = 15`, `moderate = 5`. -/
def calculate_risk_score (encroachment_pct : ℚ) : RiskOut :=
  if encroachment_pct ≥ 30 then ⟨"CRITICAL", 100, "red"⟩
  else if encroachment_pct ≥ 15 then ⟨"MAJOR VIOLATION", 75, "orange"⟩
  else if encroachment_pct ≥ 5 then ⟨"MODERATE RISK", 40, "yellow"⟩
  else if encroachment_pct > 1 / 2 then ⟨"LOW RISK", 10, "blue"⟩
  else ⟨"COMPLIANT", 0, "green"⟩

/-- `ComplianceEngine.recommend_actions`: list of administrative actions
keyed on the risk level and the classification. -/
def recommend_actions (level classification : String) : List String :=
  (if level = "CRITICAL" then
    ["Issue Immediate Stop-Work Notice",
     "Schedule Field Inspection (High Priority)",
     "Legal Escalation for Demolition"]
   else if level = "MAJOR VIOLATION" then
    ["Issue Warning Notice",
     "Schedule Field Inspection",
     "Review Lease Agreement Conditions"]
   else if level = "MODERATE RISK" then
    ["Notify Allottee to Rectify Boundary",
     "Monitor via Satellite Next Cycle"]
   else if level = "LOW RISK" then
    ["Monitor Only"]
   else [])
  ++ (if classification = "Vacant" then ["Check Non-Utilization Penalty Applicability"] else [])

end ComplianceEngine

/-- The raw (pre-clamp) encroached pixel count of the raster formulation:
foreground of the opened `built ∧ ¬plot` mask. -/
def rawEncroachedCount (plot_mask built_up_mask : Mask) : Nat :=
  countNonZero (open3 (maskAnd built_up_mask (maskNot plot_mask)))

/-- The reported encroachment percentage as a function of the approved and
raw encroached pixel counts: denominator floored to 1, numerator clamped to
the denominator, result rounded to two decimals (the arithmetic of
`ComplianceEngine.compute_encroachment` lines 43-53). -/
def reportedPct (approved encroached : Nat) : ℚ :=
  let approved_px := if approved < 1 then 1 else approved
  let encroached_px := if approved_px < encroached then approved_px else encroached
  round2 (((encroached_px : ℚ) / (approved_px : ℚ)) * 100)

/-- Projection: the reported `encroachment_pct` of a raster run
(-1 when the run raised). -/
def resultPct (r : Except String CEOut) : ℚ :=
  match r with
  | Except.ok v => v.encroachment_pct
  | Except.error _ => -1

/-- Projection: the stored (post-clamp) `encroached_px` of a raster run. -/
def resultEncroachedPx (r : Except String CEOut) : Nat :=
  match r with
  | Except.ok v => v.encroached_px
  | Except.error _ => 0

/-- Projection: whether the raster run returned normally. -/
def resultIsOk (r : Except String CEOut) : Bool :=
  match r with
  | Except.ok _ => true
  | Except.error _ => false

theorem compute_encroachment_pct_eq (plot built : Mask)
    (hr : plot.rows = built.rows) (hc : plot.cols = built.cols) :
    resultPct (ComplianceEngine.compute_encroachment plot built) =
      reportedPct (countNonZero plot) (rawEncroachedCount plot built) := by
  unfold ComplianceEngine.compute_encroachment
  rw [if_pos ⟨hr, hc⟩]
  rfl

theorem compute_encroachment_isOk (plot built : Mask)
    (hr : plot.rows = built.rows) (hc : plot.cols = built.cols) :
    resultIsOk (ComplianceEngine.compute_encroachment plot built) = true := by
  unfold ComplianceEngine.compute_encroachment
  rw [if_pos ⟨hr, hc⟩]
  rfl

theorem reportedPct_nonneg (a e : Nat) : 0 ≤ reportedPct a e := by
  unfold reportedPct
  have h0 : round2 0 ≤ round2 (((if (if a < 1 then 1 else a) < e then (if a < 1 then 1 else a) else e : Nat) : ℚ) /
      ((if a < 1 then 1 else a : Nat) : ℚ) * 100) := by
    apply round2_mono
    have ha : (0 : ℚ) < ((if a < 1 then 1 else a : Nat) : ℚ) := by
      have : 1 ≤ (if a < 1 then 1 else a) := by split <;> omega
      exact_mod_cast Nat.lt_of_lt_of_le Nat.zero_lt_one this
    positivity
  rw [round2_zero] at h0
  exact h0

theorem reportedPct_le_hundred (a e : Nat) : reportedPct a e ≤ 100 := by
  unfold reportedPct
  have key : (((if (if a < 1 then 1 else a) < e then (if a < 1 then 1 else a) else e : Nat) : ℚ) /
      ((if a < 1 then 1 else a : Nat) : ℚ) * 100) ≤ 100 := by
    set a' : Nat := if a < 1 then 1 else a with ha'
    set e' : Nat := if a' < e then a' else e with he'
    have ha1 : 1 ≤ a' := by rw [ha']; split <;> omega
    have hea : e' ≤ a' := by rw [he']; split <;> omega
    have hapos : (0 : ℚ) < (a' : ℚ) := by exact_mod_cast Nat.lt_of_lt_of_le Nat.zero_lt_one ha1
    have hdiv : ((e' : ℚ) / (a' : ℚ)) ≤ 1 := by
      rw [div_le_one hapos]; exact_mod_cast hea
    linarith
  have := round2_mono key
  rw [round2_hundred] at this
  exact this

theorem reportedPct_clamp (a e : Nat) (h : a < e) : reportedPct a e = 100 := by
  show round2 (((if (if a < 1 then 1 else a) < e then (if a < 1 then 1 else a) else e : Nat) : ℚ) /
      ((if a < 1 then 1 else a : Nat) : ℚ) * 100) = 100
  set a' : Nat := if a < 1 then 1 else a with ha'
  have ha1 : 1 ≤ a' := by rw [ha']; split <;> omega
  have hapos : (0 : ℚ) < (a' : ℚ) := by exact_mod_cast Nat.lt_of_lt_of_le Nat.zero_lt_one ha1
  have he' : (if a' < e then a' else e) = a' := by
    split
    · rfl
    · next hne =>
      have h1 : e ≤ a' := Nat.le_of_not_lt hne
      have h2 : a' ≤ e := by rw [ha']; split <;> omega
      omega
  rw [he']
  rw [div_self (ne_of_gt hapos)]
  rw [one_mul]
  exact round2_hundred

theorem reportedPct_mono (a : Nat) {e1 e2 : Nat} (h : e1 ≤ e2) :
    reportedPct a e1 ≤ reportedPct a e2 := by
  show round2 (((if (if a < 1 then 1 else a) < e1 then (if a < 1 then 1 else a) else e1 : Nat) : ℚ) /
      ((if a < 1 then 1 else a : Nat) : ℚ) * 100) ≤
    round2 (((if (if a < 1 then 1 else a) < e2 then (if a < 1 then 1 else a) else e2 : Nat) : ℚ) /
      ((if a < 1 then 1 else a : Nat) : ℚ) * 100)
  apply round2_mono
  set a' : Nat := if a < 1 then 1 else a with ha'
  have ha1 : 1 ≤ a' := by rw [ha']; split <;> omega
  have hapos : (0 : ℚ) < (a' : ℚ) := by exact_mod_cast Nat.lt_of_lt_of_le Nat.zero_lt_one ha1
  have hmin : (if a' < e1 then a' else e1) ≤ (if a' < e2 then a' else e2) := by
    split <;> split <;> omega
  have hcast : ((if a' < e1 then a' else e1 : Nat) : ℚ) ≤ ((if a' < e2 then a' else e2 : Nat) : ℚ) := by
    exact_mod_cast hmin
  have hdiv := (div_le_div_iff_of_pos_right hapos).mpr hcast
  linarith

/-! ## Polygon-based metrics (backend/compliance/metrics.py) -/

/-- The geometric operations the polygon formulation relies on, abstracting
the Shapely library (an external collaborator): area, intersection,
difference and emptiness.  `area_nonneg` records the one Shapely guarantee
the code depends on: areas are never negative. -/
structure GeomOps (P : Type) where
  area : P → ℚ
  inter : P → P → P
  diff : P → P → P
  isEmptyGeom : P → Bool
  area_nonneg : ∀ p, 0 ≤ area p

/-- Result record of `calculate_encroachment` in
backend/compliance/metrics.py.  The degenerate (zero-approved-area) branch
returns a dict carrying a `status` key and no `encroachment_polygons` key;
the normal branch vice versa, hence the two `Option` fields. -/
structure VMetrics (P : Type) where
  approved_area : ℚ
  builtup_area : ℚ
  encroached_area : ℚ
  encroachment_pct : ℚ
  encroachment_polygons : Option (List P)
  status : Option String

namespace Metrics

/-- One iteration of the built-up polygon loop of `calculate_encroachment`:
accumulates total built-up area, and (for a non-empty difference against the
layout polygon) the encroached area and the violation polygon.  The
intersection with the layout is computed in the source but never used. -/
def encroachStep {P : Type} (G : GeomOps P) (layout_poly : P)
    (s : ℚ × ℚ × List P) (poly : P) : ℚ × ℚ × List P :=
  let _valid_area := G.area (G.inter poly layout_poly)
  let difference := G.diff poly layout_poly
  if G.isEmptyGeom difference then
    (s.1 + G.area poly, s.2.1, s.2.2)
  else
    (s.1 + G.area poly, s.2.1 + G.area difference, s.2.2 ++ [difference])

/-- `calculate_encroachment` (vector form): returns the degenerate
`INVALID_LAYOUT` record when the approved area is zero; otherwise sums
per-polygon differences against the approved polygon and caps the
percentage at 100. -/
def calculate_encroachment {P : Type} (G : GeomOps P) (layout_poly : P)
    (builtup_polys : List P) : VMetrics P :=
  let total_approved_area := G.area layout_poly
  if total_approved_area = 0 then
    { approved_area := 0, builtup_area := 0, encroached_area := 0,
      encroachment_pct := 0, encroachment_polygons := none,
      status := some "INVALID_LAYOUT" }
  else
    let st := builtup_polys.foldl (encroachStep G layout_poly) (0, 0, [])
    let raw_pct := st.2.1 / total_approved_area * 100
    { approved_area := total_approved_area, builtup_area := st.1,
      encroached_area := st.2.1, encroachment_pct := min raw_pct 100,
      encroachment_polygons := some st.2.2, status := none }

/-- `calculate_health_index` in backend/compliance/metrics.py: recomputes
utilization from the areas (a zero approved area raises
`ZeroDivisionError`), then scores 100 minus 2.5 per encroachment point
minus 0.5 per utilization point below 30, clamped to `[0, 100]`. -/
def calculate_health_index {P : Type} (metrics : VMetrics P) : Except String ℚ :=
  if metrics.approved_area = 0 then Except.error "ZeroDivisionError"
  else
    let utilization_pct := metrics.builtup_area / metrics.approved_area * 100
    let encroachment_pct := metrics.encroachment_pct
    let score := 100 - encroachment_pct * 2.5 -
      (if utilization_pct < 30 then (30 - utilization_pct) * 0.5 else 0)
    Except.ok (max 0 (min 100 score))

/-- `determine_classification` in backend/compliance/metrics.py: recomputes
utilization from the areas (a zero approved area raises
`ZeroDivisionError`), then applies first-match bands. -/
def determine_classification {P : Type} (metrics : VMetrics P) : Except String String :=
  if metrics.approved_area = 0 then Except.error "ZeroDivisionError"
  else
    let utilization_pct := metrics.builtup_area / metrics.approved_area * 100
    let encroachment_pct := metrics.encroachment_pct
    Except.ok
      (if encroachment_pct > 15 then "MAJOR_VIOLATION"
       else if encroachment_pct > 1 / 2 then "ENCROACHMENT_MINOR"
       else if utilization_pct < 5 then "VACANT"
       else if utilization_pct < 40 then "UNDER_CONSTRUCTION"
       else "FULLY_CONSTRUCTED")

/-- Substring test, modelling the Python `in` operator on strings. -/
def hasSubstr (s pat : String) : Bool := 1 < (s.splitOn pat).length

/-- `recommend_actions` in backend/compliance/metrics.py: rule list with a
final fallback to a monitor action when no rule fired. -/
def recommend_actions (classification : String) (health_index : ℚ) : List String :=
  let actions :=
    (if hasSubstr classification "VIOLATION" || hasSubstr classification "ENCROACHMENT" then
      ["Issue Notice under Section 24", "Schedule Site Inspection"] ++
        (if health_index < 40 then ["Escalate to Legal Cell"] else [])
     else [])
    ++ (if classification = "VACANT" then
      ["Verify Lease Utilization Terms", "Send Reminder for Construction Check"] else [])
    ++ (if classification = "FULLY_CONSTRUCTED" ∧ health_index > 80 then
      ["Compliance Verified - No Action Needed"] else [])
  if actions = [] then ["Monitor via Satellite (Next Cycle)"] else actions

end Metrics

theorem encroachStep_nonneg {P : Type} (G : GeomOps P) (layout : P)
    (polys : List P) (s : ℚ × ℚ × List P) (h : 0 ≤ s.2.1) :
    0 ≤ (polys.foldl (Metrics.encroachStep G layout) s).2.1 := by
  induction polys generalizing s with
  | nil => exact h
  | cons p ps ih =>
    rw [List.foldl_cons]
    apply ih
    show 0 ≤ (if G.isEmptyGeom (G.diff p layout) = true then (s.1 + G.area p, s.2.1, s.2.2)
        else (s.1 + G.area p, s.2.1 + G.area (G.diff p layout), s.2.2 ++ [G.diff p layout])).2.1
    split
    · exact h
    · have := G.area_nonneg (G.diff p layout)
      show 0 ≤ s.2.1 + G.area (G.diff p layout)
      linarith

/-! ## EconomicsEngine (backend/core/economics.py) -/

namespace EconomicsEngine

/-- `EconomicsEngine.calculate_health_index`: composite health index
`clamp(0, 100, utilization*0.4 + (100 - encroachment)*0.4 - risk*0.2)`. -/
def calculate_health_index (utilization_pct encroachment_pct : ℚ) (risk_score : Nat) : ℚ :=
  let utilization := utilization_pct
  let compliance := 100 - encroachment_pct
  let risk_penalty := (risk_score : ℚ)
  let health := utilization * 0.4 + compliance * 0.4 - risk_penalty * 0.2
  max 0 (min 100 health)

end EconomicsEngine

/-- Modelled from the spec: the health-index formula of §4.4,
`health = clamp(0, 100, utilization_pct*0.4 + (100 - encroachment_pct)*0.4
- risk_score*0.2)`, written independently for refinement comparison. -/
def specHealthIndex (utilization_pct encroachment_pct : ℚ) (risk_score : Nat) : ℚ :=
  max 0 (min 100
    (utilization_pct * 0.4 + (100 - encroachment_pct) * 0.4 - (risk_score : ℚ) * 0.2))

/-- Modelled from the spec: the classification bands of §4.4 as the claim
states them (cut points 15, 0.5, 5, 40), written independently for
comparison with both source implementations. -/
def claimedClassification (encroachment_pct utilization_pct : ℚ) : String :=
  if encroachment_pct > 15 then "MAJOR_VIOLATION"
  else if encroachment_pct > 1 / 2 then "ENCROACHMENT_MINOR"
  else if utilization_pct < 5 then "VACANT"
  else if utilization_pct < 40 then "UNDER_CONSTRUCTION"
  else "FULLY_CONSTRUCTED"

/-- A concrete geometry instance for witnesses: regions are finite pixel
sets, area is cardinality, difference and intersection are set difference
and intersection. -/
def FinGeom : GeomOps (Finset (Nat × Nat)) where
  area p := (p.card : ℚ)
  inter p q := p ∩ q
  diff p q := p \ q
  isEmptyGeom p := decide (p = ∅)
  area_nonneg p := by positivity

/-! ## Built-up detection (backend/utils/builtup_detection.py and
backend/core/intelligence.py)

The OpenCV contour machinery (`cv2.findContours`, `cv2.contourArea`,
`cv2.drawContours`) is an external library; it is abstracted as a
`ContourAlg` interface whose one assumed law is documented OpenCV
behaviour: an all-background image has no contours. -/

/-- Abstract contour extraction over masks. `contours` is
`cv2.findContours (RETR_EXTERNAL)`, `contourArea` is `cv2.contourArea`,
`pointCount` the number of polygon points of a contour, and `fill` draws a
contour filled onto a mask (`cv2.drawContours(·, [c], -1, 255, -1)`).
`contours_of_blank` is the documented behaviour that a zero image yields no
contours. -/
structure ContourAlg (C : Type) where
  contours : Mask → List C
  contourArea : C → ℚ
  pointCount : C → Nat
  fill : Mask → C → Mask
  contours_of_blank : ∀ m, countNonZero m = 0 → contours m = []

/-- `cv2.resize(·, (w, h), interpolation=cv2.INTER_NEAREST)`, as nearest
index sampling (only reached when the ROI shape mismatches the image). -/
def resizeNearest (m : Mask) (r c : Nat) : Mask :=
  ⟨r, c, fun i j => m.px (i * m.rows / r) (j * m.cols / c)⟩

/-- `detect_builtup_areas` (backend/utils/builtup_detection.py) from the
Canny edge map onwards: the edge map (a cv2 computation on the decoded
image) is taken as input.  The ROI is resized if its shape mismatches, the
edges are masked by the ROI, dilated twice with a 5×5 kernel, closed twice
with a 7×7 kernel (OpenCV `morphologyEx(CLOSE, iterations=2)` dilates twice
then erodes twice), and the contours of the result are filtered by the
minimum pixel area `w*h*min_area_threshold` and by having at least 3
points, then filled into the output mask. -/
def detect_builtup_areas {C : Type} (alg : ContourAlg C) (edges roi_mask : Mask)
    (min_area_threshold : ℚ) : List C × Mask :=
  let h := edges.rows
  let w := edges.cols
  let roiFit := if roi_mask.rows = h ∧ roi_mask.cols = w then roi_mask
                else resizeNearest roi_mask h w
  let maskedEdges := maskAnd edges roiFit
  let dilated := dilateK 2 (dilateK 2 maskedEdges)
  let closed := erodeK 3 (erodeK 3 (dilateK 3 (dilateK 3 dilated)))
  let min_px_area := (w : ℚ) * (h : ℚ) * min_area_threshold
  let valid_contours := (alg.contours closed).filter
    (fun cnt => !decide (alg.contourArea cnt < min_px_area) && decide (3 ≤ alg.pointCount cnt))
  (valid_contours, valid_contours.foldl (fun m cnt => alg.fill m cnt) (zeroMask h w))

/-- Result of `IntelligenceEngine.analyze_satellite_builtup`: the empty-crop
branch returns the dict `{"built_up_mask": None, "area": 0}`; the normal
branch returns the final mask with its pixel counts. -/
inductive SatResult where
  | degenerate : SatResult
  | analyzed (built_up_mask : Mask) (built_up_px plot_area_px : Nat) : SatResult

/-- Projection: the `built_up_mask` entry of the returned dict (`None` on
the degenerate branch). -/
def builtUpMaskOf : SatResult → Option Mask
  | SatResult.degenerate => none
  | SatResult.analyzed m _ _ => some m

namespace IntelligenceEngine

/-- `IntelligenceEngine.analyze_satellite_builtup` (backend/core/intelligence.py):
`sat_crop` and `mask_crop` are the bbox crops of the satellite image and the
filled plot-polygon mask, and `structure_mask` stands for the
Canny-plus-closing edge output on the crop (a cv2 computation).  An empty
crop short-circuits to the degenerate result; otherwise the contours of the
structure mask are filled, intersected with the plot mask, and counted. -/
def analyze_satellite_builtup {C : Type} (alg : ContourAlg C)
    (sat_crop mask_crop structure_mask : Mask) : SatResult :=
  if sat_crop.rows * sat_crop.cols = 0 then
    SatResult.degenerate
  else
    let contours := alg.contours structure_mask
    let built_up_mask := contours.foldl (fun m c => alg.fill m c)
      (zeroMask structure_mask.rows structure_mask.cols)
    let final_built_up := maskAnd built_up_mask mask_crop
    SatResult.analyzed final_built_up (countNonZero final_built_up) (countNonZero mask_crop)

end IntelligenceEngine

/-- A trivial contour backend used to instantiate witnesses. -/
def trivContours : ContourAlg Unit where
  contours _ := []
  contourArea _ := 0
  pointCount _ := 0
  fill m _ := m
  contours_of_blank _ _ := rfl

/-! ## Shared helper lemmas for the claim theorems -/

theorem calculate_encroachment_fields {P : Type} (G : GeomOps P) (layout : P)
    (polys : List P) (h : G.area layout ≠ 0) :
    (Metrics.calculate_encroachment G layout polys).approved_area = G.area layout ∧
    (Metrics.calculate_encroachment G layout polys).encroached_area =
      (polys.foldl (Metrics.encroachStep G layout) (0, 0, [])).2.1 ∧
    (Metrics.calculate_encroachment G layout polys).encroachment_pct =
      min ((polys.foldl (Metrics.encroachStep G layout) (0, 0, [])).2.1 / G.area layout * 100)
        100 := by
  simp only [Metrics.calculate_encroachment]
  rw [if_neg h]
  exact ⟨rfl, rfl, rfl⟩

theorem reportedPct_zero_approved (e : Nat) :
    reportedPct 0 e = if e = 0 then 0 else 100 := by
  show round2 (((if 1 < e then 1 else e : Nat) : ℚ) / ((1 : Nat) : ℚ) * 100) = _
  rcases Nat.eq_zero_or_pos e with he | he
  · subst he
    norm_num [round2_zero]
  · have h1 : (if 1 < e then 1 else e) = 1 := by split <;> omega
    rw [h1, if_neg (by omega : ¬ e = 0)]
    norm_num [round2_hundred]

/-! ## Claim theorems -/

/-- Claim C1: for same-shaped raster masks the reported encroachment
percentage of `ComplianceEngine.compute_encroachment` lies in `[0, 100]`
and equals exactly 100 whenever the raw (pre-clamp) encroached pixel count
exceeds the approved pixel count; for a positive-area approved polygon the
percentage of `Metrics.calculate_encroachment` lies in `[0, 100]` and
equals exactly 100 whenever the accumulated encroached area exceeds the
approved area.  The clamp is applied in both formulations. -/
theorem c1_encroachment_pct_in_range :
    (∀ plot built : Mask, plot.rows = built.rows → plot.cols = built.cols →
      resultIsOk (ComplianceEngine.compute_encroachment plot built) = true ∧
      0 ≤ resultPct (ComplianceEngine.compute_encroachment plot built) ∧
      resultPct (ComplianceEngine.compute_encroachment plot built) ≤ 100 ∧
      (countNonZero plot < rawEncroachedCount plot built →
        resultPct (ComplianceEngine.compute_encroachment plot built) = 100)) ∧
    (∀ (P : Type) (G : GeomOps P) (layout : P) (polys : List P), 0 < G.area layout →
      0 ≤ (Metrics.calculate_encroachment G layout polys).encroachment_pct ∧
      (Metrics.calculate_encroachment G layout polys).encroachment_pct ≤ 100 ∧
      ((Metrics.calculate_encroachment G layout polys).approved_area <
          (Metrics.calculate_encroachment G layout polys).encroached_area →
        (Metrics.calculate_encroachment G layout polys).encroachment_pct = 100)) := by
  constructor
  · intro plot built hr hc
    refine ⟨compute_encroachment_isOk plot built hr hc, ?_, ?_, ?_⟩
    · rw [compute_encroachment_pct_eq plot built hr hc]
      exact reportedPct_nonneg _ _
    · rw [compute_encroachment_pct_eq plot built hr hc]
      exact reportedPct_le_hundred _ _
    · intro hgt
      rw [compute_encroachment_pct_eq plot built hr hc]
      exact reportedPct_clamp _ _ hgt
  · intro P G layout polys hpos
    have hnz : G.area layout ≠ 0 := ne_of_gt hpos
    obtain ⟨ha, he, hp⟩ := calculate_encroachment_fields G layout polys hnz
    have hencnn : 0 ≤ (polys.foldl (Metrics.encroachStep G layout) (0, 0, [])).2.1 :=
      encroachStep_nonneg G layout polys (0, 0, []) le_rfl
    refine ⟨?_, ?_, ?_⟩
    · rw [hp]
      exact le_min (by positivity) (by norm_num)
    · rw [hp]
      exact min_le_right _ _
    · intro hlt
      rw [ha, he] at hlt
      rw [hp]
      have hgt1 : 1 < (polys.foldl (Metrics.encroachStep G layout) (0, 0, [])).2.1 / G.area layout :=
        (one_lt_div hpos).mpr hlt
      have : (100 : ℚ) ≤ (polys.foldl (Metrics.encroachStep G layout) (0, 0, [])).2.1 / G.area layout * 100 := by
        nlinarith
      exact min_eq_right this

/-- Witness for C1 at concrete inputs: a 2×2 all-background plot mask with a
2×2 all-foreground built-up mask (raster), and a one-pixel approved region
with a disjoint one-pixel built-up region (vector). -/
theorem c1_encroachment_pct_in_range_witness :
    (resultIsOk (ComplianceEngine.compute_encroachment (zeroMask 2 2) ⟨2, 2, fun _ _ => true⟩) = true ∧
      0 ≤ resultPct (ComplianceEngine.compute_encroachment (zeroMask 2 2) ⟨2, 2, fun _ _ => true⟩) ∧
      resultPct (ComplianceEngine.compute_encroachment (zeroMask 2 2) ⟨2, 2, fun _ _ => true⟩) ≤ 100 ∧
      (countNonZero (zeroMask 2 2) < rawEncroachedCount (zeroMask 2 2) ⟨2, 2, fun _ _ => true⟩ →
        resultPct (ComplianceEngine.compute_encroachment (zeroMask 2 2) ⟨2, 2, fun _ _ => true⟩) = 100)) ∧
    (0 < FinGeom.area {(0, 0)} ∧
      0 ≤ (Metrics.calculate_encroachment FinGeom {(0, 0)} [{(1, 1)}]).encroachment_pct ∧
      (Metrics.calculate_encroachment FinGeom {(0, 0)} [{(1, 1)}]).encroachment_pct ≤ 100) :=
  ⟨c1_encroachment_pct_in_range.1 (zeroMask 2 2) ⟨2, 2, fun _ _ => true⟩ rfl rfl,
   by decide,
   (c1_encroachment_pct_in_range.2 (Finset (Nat × Nat)) FinGeom {(0, 0)} [{(1, 1)}] (by decide)).1,
   (c1_encroachment_pct_in_range.2 (Finset (Nat × Nat)) FinGeom {(0, 0)} [{(1, 1)}] (by decide)).2.1⟩

/-- Claim C10: `ComplianceEngine.compute_encroachment` raises `ValueError`
exactly when the two mask shapes differ, and returns normally on any pair
of same-shaped masks. -/
theorem c10_shape_mismatch :
    ∀ plot built : Mask,
      (¬(plot.rows = built.rows ∧ plot.cols = built.cols) →
        ComplianceEngine.compute_encroachment plot built =
          Except.error "Mask dimensions mismatch") ∧
      ((plot.rows = built.rows ∧ plot.cols = built.cols) →
        resultIsOk (ComplianceEngine.compute_encroachment plot built) = true) := by
  intro plot built
  constructor
  · intro h
    unfold ComplianceEngine.compute_encroachment
    rw [if_neg h]
  · intro h
    exact compute_encroachment_isOk plot built h.1 h.2

/-- Witness for C10: a 2×3 vs 2×2 pair raises; a 2×2 vs 2×2 pair returns. -/
theorem c10_shape_mismatch_witness :
    (ComplianceEngine.compute_encroachment (zeroMask 2 3) (zeroMask 2 2) =
      Except.error "Mask dimensions mismatch") ∧
    resultIsOk (ComplianceEngine.compute_encroachment (zeroMask 2 2) (zeroMask 2 2)) = true :=
  ⟨(c10_shape_mismatch (zeroMask 2 3) (zeroMask 2 2)).1 (by decide),
   (c10_shape_mismatch (zeroMask 2 2) (zeroMask 2 2)).2 ⟨rfl, rfl⟩⟩

/-- Counterexample for C8: the claim additionally asserts that equality of
reported percentages is possible only at or above the 100% clamp, but the
reported value is rounded to two decimals, so two distinct raw encroached
counts far below the clamp (1 and 2 pixels against 100000 approved pixels)
report the same `encroachment_pct` (0.0): `round(100*1/100000, 2) =
round(100*2/100000, 2) = 0.0`. -/
theorem c8_monotone_counterexample :
    reportedPct 100000 1 = reportedPct 100000 2 ∧ (1 : Nat) < 2 ∧ (2 : Nat) < 100000 ∧
      reportedPct 100000 2 < 100 := by
  refine ⟨?_, by norm_num, by norm_num, ?_⟩
  · show round2 (((1 : Nat) : ℚ) / ((100000 : Nat) : ℚ) * 100) =
      round2 (((2 : Nat) : ℚ) / ((100000 : Nat) : ℚ) * 100)
    unfold round2 rhe
    norm_num
  · show round2 (((2 : Nat) : ℚ) / ((100000 : Nat) : ℚ) * 100) < 100
    unfold round2 rhe
    norm_num

/-- Claim C8 (amended): the reported raster encroachment percentage is
monotonically non-decreasing in the raw encroached pixel count for a fixed
approved count, both at the arithmetic level (`reportedPct`) and lifted to
`ComplianceEngine.compute_encroachment` over whole masks; equality can
however also occur strictly below the clamp, because the reported value is
rounded to two decimals (see the counterexample). -/
theorem c8_monotone :
    (∀ a e1 e2 : Nat, e1 ≤ e2 → reportedPct a e1 ≤ reportedPct a e2) ∧
    (∀ plot b1 b2 : Mask,
      plot.rows = b1.rows → plot.cols = b1.cols →
      plot.rows = b2.rows → plot.cols = b2.cols →
      rawEncroachedCount plot b1 ≤ rawEncroachedCount plot b2 →
      resultPct (ComplianceEngine.compute_encroachment plot b1) ≤
        resultPct (ComplianceEngine.compute_encroachment plot b2)) := by
  constructor
  · intro a e1 e2 h
    exact reportedPct_mono a h
  · intro plot b1 b2 hr1 hc1 hr2 hc2 h
    rw [compute_encroachment_pct_eq plot b1 hr1 hc1,
        compute_encroachment_pct_eq plot b2 hr2 hc2]
    exact reportedPct_mono _ h

/-- Witness for C8 at concrete inputs: 1 ≤ 2 encroached pixels against 4
approved ones, and the same over concrete 1×2 masks. -/
theorem c8_monotone_witness :
    ((1 : Nat) ≤ 2 ∧ reportedPct 4 1 ≤ reportedPct 4 2) ∧
    (rawEncroachedCount (zeroMask 1 2) (zeroMask 1 2) ≤
        rawEncroachedCount (zeroMask 1 2) ⟨1, 2, fun _ _ => true⟩ ∧
      resultPct (ComplianceEngine.compute_encroachment (zeroMask 1 2) (zeroMask 1 2)) ≤
        resultPct (ComplianceEngine.compute_encroachment (zeroMask 1 2) ⟨1, 2, fun _ _ => true⟩)) :=
  ⟨⟨by norm_num, c8_monotone.1 4 1 2 (by norm_num)⟩,
   by decide,
   c8_monotone.2 (zeroMask 1 2) (zeroMask 1 2) ⟨1, 2, fun _ _ => true⟩ rfl rfl rfl rfl (by decide)⟩

/-- Counterexample for C2: the claim asserts that a zero approved area
yields `encroachment_pct = 0` in both formulations, but the raster
formulation floors the denominator to 1 and clamps the encroached count to
it: with an all-background 3×3 plot mask and an all-foreground 3×3 built-up
mask (9 raw encroached pixels, all surviving the 3×3 opening),
`ComplianceEngine.compute_encroachment` reports 100, not 0. -/
theorem c2_zero_area_counterexample :
    countNonZero (zeroMask 3 3) = 0 ∧
    resultPct (ComplianceEngine.compute_encroachment (zeroMask 3 3) ⟨3, 3, fun _ _ => true⟩) = 100 ∧
    (100 : ℚ) ≠ 0 := by
  refine ⟨rfl, ?_, by norm_num⟩
  rw [compute_encroachment_pct_eq (zeroMask 3 3) ⟨3, 3, fun _ _ => true⟩ rfl rfl]
  rw [show rawEncroachedCount (zeroMask 3 3) ⟨3, 3, fun _ _ => true⟩ = 9 from by decide]
  show reportedPct 0 9 = 100
  rw [reportedPct_zero_approved 9]
  norm_num

/-- Claim C2 (amended): neither formulation raises on a zero approved area.
The vector formulation returns the degenerate `INVALID_LAYOUT` record with
`encroachment_pct = 0`; the raster formulation floors the denominator to 1
and therefore reports 0 only when no encroached pixel survives the opening,
and 100 otherwise (see the counterexample). -/
theorem c2_zero_approved_area :
    (∀ (P : Type) (G : GeomOps P) (layout : P) (polys : List P), G.area layout = 0 →
      (Metrics.calculate_encroachment G layout polys).encroachment_pct = 0 ∧
      (Metrics.calculate_encroachment G layout polys).status = some "INVALID_LAYOUT") ∧
    (∀ plot built : Mask, plot.rows = built.rows → plot.cols = built.cols →
      countNonZero plot = 0 →
      resultIsOk (ComplianceEngine.compute_encroachment plot built) = true ∧
      resultPct (ComplianceEngine.compute_encroachment plot built) =
        (if rawEncroachedCount plot built = 0 then 0 else 100)) := by
  constructor
  · intro P G layout polys h
    simp only [Metrics.calculate_encroachment]
    rw [if_pos h]
    exact ⟨rfl, rfl⟩
  · intro plot built hr hc hz
    refine ⟨compute_encroachment_isOk plot built hr hc, ?_⟩
    rw [compute_encroachment_pct_eq plot built hr hc, hz]
    exact reportedPct_zero_approved _

/-- Witness for C2 at concrete inputs: a zero-area `FinGeom` layout with one
built-up region, and an all-background 2×2 plot mask with an all-background
built-up mask. -/
theorem c2_zero_approved_area_witness :
    (FinGeom.area (∅ : Finset (Nat × Nat)) = 0 ∧
      (Metrics.calculate_encroachment FinGeom ∅ [{(1, 1)}]).encroachment_pct = 0 ∧
      (Metrics.calculate_encroachment FinGeom ∅ [{(1, 1)}]).status = some "INVALID_LAYOUT") ∧
    (countNonZero (zeroMask 2 2) = 0 ∧
      resultPct (ComplianceEngine.compute_encroachment (zeroMask 2 2) (zeroMask 2 2)) =
        (if rawEncroachedCount (zeroMask 2 2) (zeroMask 2 2) = 0 then 0 else 100)) :=
  ⟨⟨by decide, c2_zero_approved_area.1 (Finset (Nat × Nat)) FinGeom ∅ [{(1, 1)}] (by decide)⟩,
   by decide,
   (c2_zero_approved_area.2 (zeroMask 2 2) (zeroMask 2 2) rfl rfl rfl).2⟩

/-- Counterexample for C3: `ComplianceEngine.classify_land` does not use the
claimed cut points: at encroachment 12% (which the claimed bands place in
the minor band, since 12 ≤ 15) it already returns its top band, merging 12%
with the clearly-major 20% case, while the claimed bands separate them. -/
theorem c3_classification_counterexample :
    ComplianceEngine.classify_land 12 50 = "Major Encroachment" ∧
    ComplianceEngine.classify_land 12 50 = ComplianceEngine.classify_land 20 50 ∧
    claimedClassification 12 50 = "ENCROACHMENT_MINOR" ∧
    claimedClassification 12 50 ≠ claimedClassification 20 50 ∧
    ¬ (12 : ℚ) > 15 := by
  refine ⟨?_, ?_, ?_, ?_, by norm_num⟩
  · norm_num [ComplianceEngine.classify_land]
  · norm_num [ComplianceEngine.classify_land]
  · norm_num [claimedClassification]
  · norm_num [claimedClassification]
    decide

/-- Claim C3 (amended): `Metrics.determine_classification` implements
exactly the claimed ordered bands (cut points 15, 0.5, 5, 40) on any
metrics with nonzero approved area, but `ComplianceEngine.classify_land`
implements first-match bands with cut points 10, 1, 5, 30 and its own
labels (and its dead `"Unknown"` branch is unreachable). -/
theorem c3_classification_bands :
    (∀ (P : Type) (m : VMetrics P), m.approved_area ≠ 0 →
      Metrics.determine_classification m = Except.ok
        (claimedClassification m.encroachment_pct (m.builtup_area / m.approved_area * 100))) ∧
    (∀ e u : ℚ,
      (10 < e → ComplianceEngine.classify_land e u = "Major Encroachment") ∧
      (1 < e → e ≤ 10 → ComplianceEngine.classify_land e u = "Encroached") ∧
      (e ≤ 1 → u < 5 → ComplianceEngine.classify_land e u = "Vacant") ∧
      (e ≤ 1 → 5 ≤ u → u < 30 → ComplianceEngine.classify_land e u = "Under Construction") ∧
      (e ≤ 1 → 30 ≤ u → ComplianceEngine.classify_land e u = "Fully Constructed") ∧
      ComplianceEngine.classify_land e u ≠ "Unknown") := by
  constructor
  · intro P m h
    simp only [Metrics.determine_classification, claimedClassification]
    rw [if_neg h]
  · intro e u
    unfold ComplianceEngine.classify_land
    refine ⟨fun h1 => ?_, fun h1 h2 => ?_, fun h1 h2 => ?_, fun h1 h2 h3 => ?_,
      fun h1 h2 => ?_, ?_⟩ <;>
      split_ifs <;> first | rfl | linarith | decide

/-- Witness for C3 at concrete inputs: metrics with approved area 100 and
encroachment 12%, and the same numbers fed to `classify_land`. -/
theorem c3_classification_bands_witness :
    ((⟨100, 0, 0, 12, none, none⟩ : VMetrics Unit).approved_area ≠ 0 ∧
      Metrics.determine_classification (⟨100, 0, 0, 12, none, none⟩ : VMetrics Unit) =
        Except.ok (claimedClassification (12 : ℚ) ((0 : ℚ) / 100 * 100))) ∧
    ((10 : ℚ) < 12 ∧ ComplianceEngine.classify_land 12 0 = "Major Encroachment") :=
  ⟨⟨by norm_num,
    c3_classification_bands.1 Unit (⟨100, 0, 0, 12, none, none⟩ : VMetrics Unit) (by norm_num)⟩,
   by norm_num,
   (c3_classification_bands.2 12 0).1 (by norm_num)⟩

/-- Claim C4: `ComplianceEngine.calculate_risk_score` evaluates ordered
first-match bands on the encroachment percentage alone: CRITICAL/100 at
≥ 30, MAJOR/75 at ≥ 15, MODERATE/40 at ≥ 5, LOW/10 above 0.5, COMPLIANT/0
otherwise — so 0.5 itself is COMPLIANT. -/
theorem c4_risk_score_bands :
    ∀ e : ℚ,
      (30 ≤ e → ComplianceEngine.calculate_risk_score e = ⟨"CRITICAL", 100, "red"⟩) ∧
      (15 ≤ e → e < 30 →
        ComplianceEngine.calculate_risk_score e = ⟨"MAJOR VIOLATION", 75, "orange"⟩) ∧
      (5 ≤ e → e < 15 →
        ComplianceEngine.calculate_risk_score e = ⟨"MODERATE RISK", 40, "yellow"⟩) ∧
      (1 / 2 < e → e < 5 → ComplianceEngine.calculate_risk_score e = ⟨"LOW RISK", 10, "blue"⟩) ∧
      (e ≤ 1 / 2 → ComplianceEngine.calculate_risk_score e = ⟨"COMPLIANT", 0, "green"⟩) := by
  intro e
  unfold ComplianceEngine.calculate_risk_score
  refine ⟨fun h1 => ?_, fun h1 h2 => ?_, fun h1 h2 => ?_, fun h1 h2 => ?_, fun h1 => ?_⟩ <;>
    split_ifs <;> first | rfl | linarith

/-- Witness for C4 at concrete inputs: the boundary value 0.5 is COMPLIANT
with score 0, and 40 is CRITICAL with score 100. -/
theorem c4_risk_score_bands_witness :
    ((1 : ℚ) / 2 ≤ 1 / 2 ∧
      ComplianceEngine.calculate_risk_score (1 / 2) = ⟨"COMPLIANT", 0, "green"⟩) ∧
    ((30 : ℚ) ≤ 40 ∧
      ComplianceEngine.calculate_risk_score 40 = ⟨"CRITICAL", 100, "red"⟩) :=
  ⟨⟨le_refl _, (c4_risk_score_bands (1 / 2)).2.2.2.2 (le_refl _)⟩,
   ⟨by norm_num, (c4_risk_score_bands 40).1 (by norm_num)⟩⟩

/-- Counterexample for C5: the two health-index implementations disagree on
identical metrics.  With zero utilization, zero encroachment and the
corresponding risk score 0, `EconomicsEngine.calculate_health_index` (the
spec's clamp formula) gives 40, while `Metrics.calculate_health_index` (the
same metrics, approved area 100 and no built-up area) gives 85. -/
theorem c5_health_index_counterexample :
    EconomicsEngine.calculate_health_index 0 0 (ComplianceEngine.calculate_risk_score 0).score = 40 ∧
    Metrics.calculate_health_index (⟨100, 0, 0, 0, none, none⟩ : VMetrics Unit) =
      Except.ok 85 ∧
    (40 : ℚ) ≠ 85 := by
  refine ⟨?_, ?_, by norm_num⟩
  · norm_num [EconomicsEngine.calculate_health_index, ComplianceEngine.calculate_risk_score]
  · norm_num [Metrics.calculate_health_index]

/-- Claim C5 (amended): `EconomicsEngine.calculate_health_index` computes
exactly the spec's clamp formula and always lies in `[0, 100]`;
`Metrics.calculate_health_index` is also clamped to `[0, 100]` on any
metrics with nonzero approved area but computes a different formula, so the
two implementations do not agree on identical inputs (see the
counterexample). -/
theorem c5_health_index :
    (∀ (u e : ℚ) (r : Nat),
      EconomicsEngine.calculate_health_index u e r = specHealthIndex u e r ∧
      0 ≤ EconomicsEngine.calculate_health_index u e r ∧
      EconomicsEngine.calculate_health_index u e r ≤ 100) ∧
    (∀ (P : Type) (m : VMetrics P), m.approved_area ≠ 0 →
      ∃ h, Metrics.calculate_health_index m = Except.ok h ∧ 0 ≤ h ∧ h ≤ 100) := by
  constructor
  · intro u e r
    refine ⟨rfl, ?_, ?_⟩
    · show 0 ≤ max 0 (min 100 (u * 0.4 + (100 - e) * 0.4 - (r : ℚ) * 0.2))
      exact le_max_left 0 _
    · show max 0 (min 100 (u * 0.4 + (100 - e) * 0.4 - (r : ℚ) * 0.2)) ≤ 100
      exact max_le (by norm_num) (min_le_left _ _)
  · intro P m h
    simp only [Metrics.calculate_health_index]
    rw [if_neg h]
    refine ⟨_, rfl, le_max_left 0 _, max_le (by norm_num) (min_le_left _ _)⟩

/-- Witness for C5 at concrete inputs: utilization 50, encroachment 10,
risk score 10 for the economics engine; approved area 100 with built-up
area 50 for the metrics version. -/
theorem c5_health_index_witness :
    (EconomicsEngine.calculate_health_index 50 10 10 = specHealthIndex 50 10 10 ∧
      0 ≤ EconomicsEngine.calculate_health_index 50 10 10 ∧
      EconomicsEngine.calculate_health_index 50 10 10 ≤ 100) ∧
    ((⟨100, 50, 0, 0, none, none⟩ : VMetrics Unit).approved_area ≠ 0 ∧
      ∃ h, Metrics.calculate_health_index (⟨100, 50, 0, 0, none, none⟩ : VMetrics Unit) =
          Except.ok h ∧ 0 ≤ h ∧ h ≤ 100) :=
  ⟨c5_health_index.1 50 10 10,
   by norm_num,
   c5_health_index.2 Unit (⟨100, 50, 0, 0, none, none⟩ : VMetrics Unit) (by norm_num)⟩

/-- Claim C6 (code bug): the degenerate zero-approved-area record that
`Metrics.calculate_encroachment` itself produces (approved, built-up and
encroached areas all 0) makes `Metrics.determine_classification` divide by
zero instead of returning a classification: the classifier is not total on
the calculator's own output. -/
theorem c6_classification_degenerate_raises :
    Metrics.determine_classification
        (Metrics.calculate_encroachment FinGeom (∅ : Finset (Nat × Nat)) [{(5, 5)}]) =
      Except.error "ZeroDivisionError" ∧
    (Metrics.calculate_encroachment FinGeom (∅ : Finset (Nat × Nat)) [{(5, 5)}]).approved_area
      = 0 := by
  constructor
  · rfl
  · rfl

theorem fallbackNonempty {α : Type} [DecidableEq α] (L : List α) (x : α) :
    (if L = [] then [x] else L) ≠ [] := by
  split
  · simp
  · next h => exact h

/-- Counterexample for C7: `ComplianceEngine.recommend_actions` has no
fallback rule: at risk level COMPLIANT with a non-Vacant classification it
returns the empty list. -/
theorem c7_actions_counterexample :
    ComplianceEngine.recommend_actions "COMPLIANT" "Fully Constructed" = [] := by
  rfl

/-- Claim C7 (amended): `Metrics.recommend_actions` always returns a
non-empty list (it falls back to a monitor action), but
`ComplianceEngine.recommend_actions` returns the empty list exactly when
the risk level is none of its four recognised levels (in particular
COMPLIANT) and the classification is not Vacant. -/
theorem c7_recommend_nonempty :
    (∀ (classification : String) (health : ℚ),
      Metrics.recommend_actions classification health ≠ []) ∧
    (∀ level classification : String,
      ComplianceEngine.recommend_actions level classification = [] ↔
        (level ≠ "CRITICAL" ∧ level ≠ "MAJOR VIOLATION" ∧ level ≠ "MODERATE RISK" ∧
          level ≠ "LOW RISK" ∧ classification ≠ "Vacant")) := by
  constructor
  · intro classification health
    simp only [Metrics.recommend_actions]
    exact fallbackNonempty _ _
  · intro level classification
    simp only [ComplianceEngine.recommend_actions, List.append_eq_nil]
    split_ifs <;> simp_all

/-- Witness for C7 at concrete inputs: the fallback fires for a fully
constructed healthy plot, and the engine version is non-empty at CRITICAL. -/
theorem c7_recommend_nonempty_witness :
    Metrics.recommend_actions "FULLY_CONSTRUCTED" 50 ≠ [] ∧
    (ComplianceEngine.recommend_actions "CRITICAL" "Plot" = [] ↔
      (("CRITICAL" : String) ≠ "CRITICAL" ∧ ("CRITICAL" : String) ≠ "MAJOR VIOLATION" ∧
        ("CRITICAL" : String) ≠ "MODERATE RISK" ∧ ("CRITICAL" : String) ≠ "LOW RISK" ∧
        ("Plot" : String) ≠ "Vacant")) :=
  ⟨c7_recommend_nonempty.1 "FULLY_CONSTRUCTED" 50,
   c7_recommend_nonempty.2 "CRITICAL" "Plot"⟩

/-- Counterexample for C9: on a degenerate (empty) ROI crop,
`IntelligenceEngine.analyze_satellite_builtup` does not return an
all-background built-up mask: it returns the sentinel dict whose
`built_up_mask` entry is `None` — there is no mask at all. -/
theorem c9_degenerate_counterexample :
    builtUpMaskOf (IntelligenceEngine.analyze_satellite_builtup trivContours
        (zeroMask 0 5) (zeroMask 4 4) (zeroMask 4 4)) = none ∧
    ¬ ∃ m : Mask, builtUpMaskOf (IntelligenceEngine.analyze_satellite_builtup trivContours
        (zeroMask 0 5) (zeroMask 4 4) (zeroMask 4 4)) = some m := by
  constructor
  · rfl
  · rintro ⟨m, hm⟩
    have hm' : (none : Option Mask) = some m := hm
    exact Option.noConfusion hm'

/-- Claim C9 (amended): neither detector raises on a degenerate region of
interest.  `IntelligenceEngine.analyze_satellite_builtup` short-circuits an
empty crop to the sentinel `{"built_up_mask": None, "area": 0}` result
(`None`, not an all-background mask — see the counterexample);
`detect_builtup_areas` on a zero-foreground ROI of matching shape returns
no polygons and an all-background mask, whatever the edge content of the
satellite image. -/
theorem c9_degenerate_roi :
    (∀ (C : Type) (alg : ContourAlg C) (sat_crop mask_crop structure_mask : Mask),
      sat_crop.rows * sat_crop.cols = 0 →
      IntelligenceEngine.analyze_satellite_builtup alg sat_crop mask_crop structure_mask =
        SatResult.degenerate) ∧
    (∀ (C : Type) (alg : ContourAlg C) (edges roi_mask : Mask) (t : ℚ),
      roi_mask.rows = edges.rows → roi_mask.cols = edges.cols →
      countNonZero roi_mask = 0 →
      (detect_builtup_areas alg edges roi_mask t).1 = [] ∧
      countNonZero (detect_builtup_areas alg edges roi_mask t).2 = 0) := by
  constructor
  · intro C alg sat_crop mask_crop structure_mask h
    simp only [IntelligenceEngine.analyze_satellite_builtup]
    rw [if_pos h]
  · intro C alg edges roi_mask t hr hc hz
    have hroi : AllBlank roi_mask := (countNonZero_eq_zero_iff roi_mask).mp hz
    have hmasked : AllBlank (maskAnd edges roi_mask) :=
      AllBlank_maskAnd_of_right edges roi_mask hr.symm hc.symm hroi
    have hclosed : AllBlank (erodeK 3 (erodeK 3 (dilateK 3 (dilateK 3
        (dilateK 2 (dilateK 2 (maskAnd edges roi_mask))))))) :=
      AllBlank_erodeK 3 _ (AllBlank_erodeK 3 _ (AllBlank_dilateK 3 _ (AllBlank_dilateK 3 _
        (AllBlank_dilateK 2 _ (AllBlank_dilateK 2 _ hmasked)))))
    have hcnt := alg.contours_of_blank _ ((countNonZero_eq_zero_iff _).mpr hclosed)
    simp only [detect_builtup_areas]
    rw [if_pos ⟨hr, hc⟩, hcnt]
    constructor
    · simp
    · simp only [List.filter_nil, List.foldl_nil]
      exact (countNonZero_eq_zero_iff _).mpr (zeroMask_blank _ _)

/-- Witness for C9 at concrete inputs: a 0×5 (empty) satellite crop, and a
4×4 all-background ROI over a 4×4 edge map. -/
theorem c9_degenerate_roi_witness :
    ((zeroMask 0 5).rows * (zeroMask 0 5).cols = 0 ∧
      IntelligenceEngine.analyze_satellite_builtup trivContours (zeroMask 0 5) (zeroMask 3 3)
        (zeroMask 3 3) = SatResult.degenerate) ∧
    (countNonZero (zeroMask 4 4) = 0 ∧
      (detect_builtup_areas trivContours (zeroMask 4 4) (zeroMask 4 4) (1 / 100)).1 = [] ∧
      countNonZero (detect_builtup_areas trivContours (zeroMask 4 4) (zeroMask 4 4) (1 / 100)).2
        = 0) :=
  ⟨⟨rfl, c9_degenerate_roi.1 Unit trivContours (zeroMask 0 5) (zeroMask 3 3) (zeroMask 3 3) rfl⟩,
   ⟨rfl,
    (c9_degenerate_roi.2 Unit trivContours (zeroMask 4 4) (zeroMask 4 4) (1 / 100) rfl rfl rfl).1,
    (c9_degenerate_roi.2 Unit trivContours (zeroMask 4 4) (zeroMask 4 4) (1 / 100) rfl rfl rfl).2⟩⟩
